import Mathlib

/-!
Shallow embedding of `src/baby_main.py` (baby doll simulator).

Modelling choices:
* Timestamps and durations are `Int` seconds.  The source uses Python floats
  from `time.time()`; every claim under scrutiny depends only on ordering,
  subtraction and modulus, so integer seconds are a faithful abstraction
  (`int(x)` in the source becomes the identity).
* Calls to `log_activity` become `ActivityEvent` records collecting exactly
  the arguments passed at each call site (the `message` keeps the constant
  skeleton of the source f-string, without the interpolated numbers).
* The random draws `random.uniform(...)` and `random.random() < 0.5` are
  injected through a `Samples` record (the deterministic interval source the
  spec demands for testing); within one `check_baby_needs` call the source
  draws fresh values per comparison, which the injection generalises.
* The Python dicts `button_press_start_times` / `button_hold_timers` become
  total functions `Nat → Option _` (`none` = Python `None`).  A pending
  `threading.Timer` handle is modelled as `some d` where `d` is the delay it
  was armed with; cancellation/expiry is modelled by explicit interleavings
  of the handler functions, as the handlers themselves serialise on
  `button_lock` in the source.
* `GPIO.input(channel) == GPIO.LOW` (pressed, with pull-ups) is the `line`
  field of the world: `line ch = true` means the physical line reads pressed.
  A physical press/release edge first flips the line, then runs the callback
  (`pressEdge` / `releaseEdge`).
* `time.time() - need_start_time` with `need_start_time = None` raises
  `TypeError` in Python, so `process_button_action` and `check_button_hold`
  return `Except String _`.
-/

namespace BabyPi

/-- The three values `current_baby_state` takes in `baby_main.py`. -/
inductive BabyState
  | SLEEPING
  | HUNGRY
  | WET_DIAPER
deriving DecidableEq, Repr

def BUTTON_HUNGER_PIN : Nat := 17

def BUTTON_DIAPER_PIN : Nat := 27

def HOLD_DURATION_HUNGER : Int := 3 * 60

def HOLD_DURATION_DIAPER : Int := 1 * 60

/-- One `log_activity(...)` call: the arguments passed at the call site.
`baby_state` is the string argument when given (`none` means the source let
it default to the global state, a formatting-only detail). -/
structure ActivityEvent where
  event_type : String
  baby_state : Option String
  need_type : Option String
  time_to_tend : Option Int
  button_pin : Option Nat
  hold_duration : Option Int
  message : String
deriving DecidableEq, Repr

/-- The global baby-state variables of `baby_main.py`. -/
structure BabyVars where
  current_baby_state : BabyState
  last_fed_time : Int
  last_diaper_change_time : Int
  last_sleep_start_time : Int
  need_start_time : Option Int
deriving DecidableEq, Repr

/-- Initial globals: state `SLEEPING`, all `last_*` clocks at process start
`t0`, `need_start_time = None`. -/
def initBabyVars (t0 : Int) : BabyVars :=
  { current_baby_state := BabyState.SLEEPING
    last_fed_time := t0
    last_diaper_change_time := t0
    last_sleep_start_time := t0
    need_start_time := none }

def babyFedEvent (time_to_tend : Int) : ActivityEvent :=
  ⟨"Need Met", some "FED", some "Hunger", some time_to_tend, none, none, "BABY FED!"⟩

def sleepAfterFeedingEvent : ActivityEvent :=
  ⟨"Baby State Change", some "SLEEPING", none, none, none, none,
    "Baby went to sleep after feeding."⟩

def notHungryEvent : ActivityEvent :=
  ⟨"Incorrect Action", none, some "Hunger", none, none, none,
    "Baby is not hungry right now. Keep an eye on the needs!"⟩

def diaperChangedEvent (time_to_tend : Int) : ActivityEvent :=
  ⟨"Need Met", some "DRY", some "Diaper", some time_to_tend, none, none, "DIAPER CHANGED!"⟩

def sleepAfterChangeEvent : ActivityEvent :=
  ⟨"Baby State Change", some "SLEEPING", none, none, none, none,
    "Baby went to sleep after diaper change."⟩

def notWetEvent : ActivityEvent :=
  ⟨"Incorrect Action", none, some "Diaper", none, none, none,
    "Diaper is not wet right now. Check again later!"⟩

/-- `process_button_action(channel)` of `baby_main.py` (lines 192-228), with
the run time `now` passed explicitly (the source calls `time.time()`; the
several calls inside one invocation collapse to the same instant).
Returns the updated globals and the `log_activity` calls, in order. -/
def process_button_action (bv : BabyVars) (channel : Nat) (now : Int) :
    Except String (BabyVars × List ActivityEvent) :=
  if channel = BUTTON_HUNGER_PIN then
    if bv.current_baby_state = BabyState.HUNGRY then
      match bv.need_start_time with
      | none => Except.error "TypeError: unsupported operand for float and NoneType"
      | some ns =>
          let time_to_tend := now - ns
          Except.ok
            ({ bv with
                last_fed_time := now
                last_sleep_start_time := now
                current_baby_state := BabyState.SLEEPING
                need_start_time := none },
              [babyFedEvent time_to_tend, sleepAfterFeedingEvent])
    else
      Except.ok (bv, [notHungryEvent])
  else if channel = BUTTON_DIAPER_PIN then
    if bv.current_baby_state = BabyState.WET_DIAPER then
      match bv.need_start_time with
      | none => Except.error "TypeError: unsupported operand for float and NoneType"
      | some ns =>
          let time_to_tend := now - ns
          Except.ok
            ({ bv with
                last_diaper_change_time := now
                last_sleep_start_time := now
                current_baby_state := BabyState.SLEEPING
                need_start_time := none },
              [diaperChangedEvent time_to_tend, sleepAfterChangeEvent])
    else
      Except.ok (bv, [notWetEvent])
  else
    Except.ok (bv, [])

example :
    process_button_action (initBabyVars 0) BUTTON_HUNGER_PIN 5 =
      Except.ok (initBabyVars 0, [notHungryEvent]) := rfl

/-- Injected random source: the values the `random.uniform(...)` /
`random.random() < 0.5` draws of one `check_baby_needs` call produce.
`wake_coin_hungry = true` means `random.random() < 0.5` (pick HUNGRY). -/
structure Samples where
  sleep_threshold : Int
  hunger_threshold : Int
  diaper_threshold : Int
  wake_coin_hungry : Bool
deriving DecidableEq, Repr

def wakeEvent : ActivityEvent :=
  ⟨"Baby State Change", some "AWAKE", none, none, none, none, "Baby waking up!"⟩

def wakeHungryEvent : ActivityEvent :=
  ⟨"Baby State Change", some "HUNGRY", some "Hunger", none, none, none,
    "BABY IS HUNGRY! (Press and hold Hunger button for 3 minutes)"⟩

def wakeWetEvent : ActivityEvent :=
  ⟨"Baby State Change", some "WET_DIAPER", some "Diaper", none, none, none,
    "BABY HAS A WET DIAPER! (Press and hold Diaper button for 1 minute)"⟩

def stillHungryEvent : ActivityEvent :=
  ⟨"Need Unmet", some "HUNGRY", some "Hunger", none, none, none, "Baby is still hungry!"⟩

def stillWetEvent : ActivityEvent :=
  ⟨"Need Unmet", some "WET_DIAPER", some "Diaper", none, none, none,
    "Baby still has a wet diaper!"⟩

def hungryAgainEvent : ActivityEvent :=
  ⟨"Baby State Change", some "HUNGRY", some "Hunger", none, none, none,
    "Baby is getting hungry again!"⟩

def wetAgainEvent : ActivityEvent :=
  ⟨"Baby State Change", some "WET_DIAPER", some "Diaper", none, none, none,
    "Baby needs a diaper change again!"⟩

/-- First section of `check_baby_needs` (lines 238-278): the `match` on
`current_baby_state` — wake-up transition out of SLEEPING, or periodic
reminder logging while HUNGRY / WET_DIAPER. -/
def primaryPhase (bv : BabyVars) (now : Int) (s : Samples) : BabyVars × List ActivityEvent :=
  match bv.current_baby_state with
  | BabyState.SLEEPING =>
      let elapsed_sleep_time := now - bv.last_sleep_start_time
      if s.sleep_threshold ≤ elapsed_sleep_time then
        if s.wake_coin_hungry then
          ({ bv with current_baby_state := BabyState.HUNGRY, need_start_time := some now },
            [wakeEvent, wakeHungryEvent])
        else
          ({ bv with current_baby_state := BabyState.WET_DIAPER, need_start_time := some now },
            [wakeEvent, wakeWetEvent])
      else (bv, [])
  | BabyState.HUNGRY =>
      match bv.need_start_time with
      | some ns =>
          let elapsed_since_hungry := now - ns
          if 0 < elapsed_since_hungry ∧ elapsed_since_hungry % 60 = 0 then
            (bv, [stillHungryEvent])
          else (bv, [])
      | none => (bv, [])
  | BabyState.WET_DIAPER =>
      match bv.need_start_time with
      | some ns =>
          let elapsed_since_wet := now - ns
          if 0 < elapsed_since_wet ∧ elapsed_since_wet % 30 = 0 then
            (bv, [stillWetEvent])
          else (bv, [])
      | none => (bv, [])

/-- Hunger-development check of `check_baby_needs` (lines 284-290): fires when
the hunger interval has elapsed since `last_fed_time`; only changes state when
not already HUNGRY; sets `need_start_time` only if it is currently `None`. -/
def hungerOnsetStep (bv : BabyVars) (now : Int) (s : Samples) : BabyVars × List ActivityEvent :=
  if s.hunger_threshold ≤ now - bv.last_fed_time then
    if bv.current_baby_state ≠ BabyState.HUNGRY then
      let bv1 := { bv with current_baby_state := BabyState.HUNGRY }
      let bv2 := if bv1.need_start_time = none then { bv1 with need_start_time := some now } else bv1
      (bv2, [hungryAgainEvent])
    else (bv, [])
  else (bv, [])

/-- Diaper-development check of `check_baby_needs` (lines 293-299), the exact
mirror of `hungerOnsetStep`. -/
def diaperOnsetStep (bv : BabyVars) (now : Int) (s : Samples) : BabyVars × List ActivityEvent :=
  if s.diaper_threshold ≤ now - bv.last_diaper_change_time then
    if bv.current_baby_state ≠ BabyState.WET_DIAPER then
      let bv1 := { bv with current_baby_state := BabyState.WET_DIAPER }
      let bv2 := if bv1.need_start_time = none then { bv1 with need_start_time := some now } else bv1
      (bv2, [wetAgainEvent])
    else (bv, [])
  else (bv, [])

/-- Second section of `check_baby_needs` (lines 282-299): while not SLEEPING,
run the hunger check and then, on its result, the diaper check. -/
def onsetPhase (bv : BabyVars) (now : Int) (s : Samples) : BabyVars × List ActivityEvent :=
  if bv.current_baby_state ≠ BabyState.SLEEPING then
    let hr := hungerOnsetStep bv now s
    let dr := diaperOnsetStep hr.1 now s
    (dr.1, hr.2 ++ dr.2)
  else (bv, [])

/-- `check_baby_needs()` of `baby_main.py` (lines 231-299): the per-second
tick, with `current_time` passed as `now` and the random draws injected as
`s`.  It mutates only `current_baby_state` and `need_start_time`. -/
def check_baby_needs (bv : BabyVars) (now : Int) (s : Samples) : BabyVars × List ActivityEvent :=
  let pr := primaryPhase bv now s
  let onr := onsetPhase pr.1 now s
  (onr.1, pr.2 ++ onr.2)

example :
    (check_baby_needs (initBabyVars 0) 7200 ⟨7200, 99999, 99999, true⟩).1 =
      { initBabyVars 0 with current_baby_state := BabyState.HUNGRY, need_start_time := some 7200 } := rfl

example :
    (check_baby_needs ⟨BabyState.HUNGRY, 0, 0, 0, some 10⟩ 7200 ⟨99999, 99999, 3600, true⟩).1 =
      ⟨BabyState.WET_DIAPER, 0, 0, 0, some 10⟩ := rfl

/-- Point update of a `Nat`-indexed map (a Python dict assignment). -/
def setAt {α : Type} (f : Nat → α) (k : Nat) (v : α) : Nat → α :=
  fun n => if n = k then v else f n

/-- The shared mutable state the three concurrency contexts touch: the baby
globals, the two per-channel button dicts, and the physical line level per
channel (`line ch = true` ⟺ `GPIO.input(ch) == GPIO.LOW`, i.e. pressed). -/
structure World where
  baby : BabyVars
  button_press_start_times : Nat → Option Int
  button_hold_timers : Nat → Option Int
  line : Nat → Bool

/-- Process-start world: baby sleeping since `t0`, both dicts holding `None`,
no button pressed. -/
def initWorld : World :=
  { baby := initBabyVars 0
    button_press_start_times := fun _ => none
    button_hold_timers := fun _ => none
    line := fun _ => false }

def pressedEvent (channel : Nat) : ActivityEvent :=
  ⟨"Button Event", none, none, none, some channel, none, "Button pressed."⟩

def releasedEvent (channel : Nat) (hold_duration : Int) : ActivityEvent :=
  ⟨"Button Event", none, none, none, some channel, some hold_duration, "Button released."⟩

def holdTooShortEvent (channel : Nat) : ActivityEvent :=
  ⟨"Action Failed", none, none, none, some channel, none, "Hold duration too short."⟩

def bounceReleaseEvent (channel : Nat) : ActivityEvent :=
  ⟨"Button Event", none, none, none, some channel, none,
    "Button released but no press start time recorded (might be a bounce)."⟩

def staleTimerEvent (channel : Nat) : ActivityEvent :=
  ⟨"Button Event", none, none, none, some channel, none,
    "Hold timer triggered, but button was already released."⟩

/-- `button_pressed_callback(channel)` (lines 121-144).  The source first
stores `press_start_times[channel] = time.time()` and logs, then bails out if
the channel is not a configured button; otherwise it cancels any existing
timer and arms a fresh one (`some required_hold`). -/
def button_pressed_callback (w : World) (channel : Nat) (now : Int) :
    World × List ActivityEvent :=
  let w1 := { w with
    button_press_start_times := setAt w.button_press_start_times channel (some now) }
  let evs := [pressedEvent channel]
  match (if channel = BUTTON_HUNGER_PIN then some HOLD_DURATION_HUNGER
    else if channel = BUTTON_DIAPER_PIN then some HOLD_DURATION_DIAPER
    else none) with
  | none => (w1, evs)
  | some required_hold =>
      ({ w1 with button_hold_timers := setAt w1.button_hold_timers channel (some required_hold) },
        evs)

/-- `button_released_callback(channel)` (lines 146-173), with the callback run
time passed as `now`.  Note the source computes `required_duration` with a
two-way conditional, treating every non-Hunger pin as the Diaper pin. -/
def button_released_callback (w : World) (channel : Nat) (now : Int) :
    World × List ActivityEvent :=
  match w.button_press_start_times channel with
  | some press_start =>
      let hold_duration := now - press_start
      let w1 := { w with
        button_hold_timers := setAt w.button_hold_timers channel none
        button_press_start_times := setAt w.button_press_start_times channel none }
      let required_duration :=
        if channel = BUTTON_HUNGER_PIN then HOLD_DURATION_HUNGER else HOLD_DURATION_DIAPER
      if hold_duration < required_duration then
        (w1, [releasedEvent channel hold_duration, holdTooShortEvent channel])
      else
        (w1, [releasedEvent channel hold_duration])
  | none => (w, [bounceReleaseEvent channel])

/-- `check_button_hold(channel)` (lines 175-190): the hold timer body.  It
re-reads the physical line; if still pressed it runs the Action Resolver,
otherwise it only logs the benign stale-timer event; the timer reference is
cleared afterward in both cases (but not when the resolver raises, since the
assignment on line 190 is then never reached). -/
def check_button_hold (w : World) (channel : Nat) (now : Int) :
    Except String (World × List ActivityEvent) :=
  if w.line channel then
    match process_button_action w.baby channel now with
    | Except.error e => Except.error e
    | Except.ok r =>
        Except.ok
          ({ w with baby := r.1, button_hold_timers := setAt w.button_hold_timers channel none },
            r.2)
  else
    Except.ok
      ({ w with button_hold_timers := setAt w.button_hold_timers channel none },
        [staleTimerEvent channel])

/-- A physical edge flips the line level before the GPIO callback runs. -/
def setLine (w : World) (channel : Nat) (level : Bool) : World :=
  { w with line := fun n => if n = channel then level else w.line n }

/-- Falling edge (press) at time `now`: line goes to pressed, then
`button_pressed_callback` runs. -/
def pressEdge (w : World) (channel : Nat) (now : Int) : World × List ActivityEvent :=
  button_pressed_callback (setLine w channel true) channel now

/-- Rising edge (release) at time `now`: line goes to released, then
`button_released_callback` runs. -/
def releaseEdge (w : World) (channel : Nat) (now : Int) : World × List ActivityEvent :=
  button_released_callback (setLine w channel false) channel now

example : (pressEdge initWorld 17 4).1.button_hold_timers 17 = some 180 := rfl

example :
    (releaseEdge (pressEdge initWorld 17 4).1 17 14).2 =
      [releasedEvent 17 10, holdTooShortEvent 17] := rfl

example :
    (check_button_hold (releaseEdge (pressEdge initWorld 17 4).1 17 14).1 17 184).map
        (fun r => r.2) =
      Except.ok [staleTimerEvent 17] := rfl

/-- Spec §8 invariant on the baby globals:
`need_start_time.is_some() == (state != SLEEPING)`. -/
def needInv (bv : BabyVars) : Prop :=
  bv.need_start_time.isSome = true ↔ bv.current_baby_state ≠ BabyState.SLEEPING

instance (bv : BabyVars) : Decidable (needInv bv) := by
  unfold needInv
  infer_instance

theorem primaryPhase_needInv (bv : BabyVars) (now : Int) (s : Samples) (h : needInv bv) :
    needInv (primaryPhase bv now s).1 := by
  obtain ⟨st, lf, ld, ls, ns⟩ := bv
  simp only [needInv] at h ⊢
  cases st <;> cases ns <;>
    simp only [primaryPhase] <;> (try split_ifs) <;> simp_all

theorem onsetPhase_needInv (bv : BabyVars) (now : Int) (s : Samples) (h : needInv bv) :
    needInv (onsetPhase bv now s).1 := by
  obtain ⟨st, lf, ld, ls, ns⟩ := bv
  simp only [needInv] at h ⊢
  cases st <;> cases ns <;>
    simp [onsetPhase, hungerOnsetStep, diaperOnsetStep] <;> (try split_ifs) <;> simp_all

/-- C1: the initial globals satisfy the invariant, and both operations — a
Need Scheduler tick (`check_baby_needs`) and an Action Resolver invocation
(`process_button_action`) — preserve it: afterwards `need_start_time` is
`Some` iff the state is not SLEEPING, so it is cleared to `None` exactly on
the transitions back to SLEEPING. -/
theorem need_start_time_invariant (t0 : Int) (bv : BabyVars) (now : Int) (s : Samples)
    (h : needInv bv) :
    needInv (initBabyVars t0) ∧
    needInv (check_baby_needs bv now s).1 ∧
    (∀ channel now2 r, process_button_action bv channel now2 = Except.ok r → needInv r.1) := by
  refine ⟨by simp [needInv, initBabyVars], ?_, ?_⟩
  · show needInv (onsetPhase (primaryPhase bv now s).1 now s).1
    exact onsetPhase_needInv _ now s (primaryPhase_needInv bv now s h)
  · intro channel now2 r hr
    obtain ⟨st, lf, ld, ls, ns⟩ := bv
    simp only [needInv] at h ⊢
    unfold process_button_action at hr
    cases st <;> cases ns <;> split_ifs at hr <;>
      (try simp only [Except.ok.injEq] at hr) <;> (subst hr; simp_all)

theorem need_start_time_invariant_witness :
    needInv (initBabyVars 0) ∧
    needInv (check_baby_needs (initBabyVars 0) 5 ⟨3, 20, 30, true⟩).1 :=
  ⟨by decide, (need_start_time_invariant 0 (initBabyVars 0) 5 ⟨3, 20, 30, true⟩ (by decide)).2.1⟩

/-- C2: a confirmed hold on the matching channel computes
`time_to_tend = now - need_start_time`, emits the need-met event, sets the
matching `last_*` clock and `last_sleep_start_time` to `now`, moves the state
to SLEEPING, clears `need_start_time`, and emits the need-met event before
the state-change event of the same transition. -/
theorem confirmed_hold_matching_transition (bv : BabyVars) (now ns : Int)
    (hns : bv.need_start_time = some ns) :
    (bv.current_baby_state = BabyState.HUNGRY →
      process_button_action bv BUTTON_HUNGER_PIN now =
        Except.ok
          ({ bv with
              last_fed_time := now
              last_sleep_start_time := now
              current_baby_state := BabyState.SLEEPING
              need_start_time := none },
            [babyFedEvent (now - ns), sleepAfterFeedingEvent])) ∧
    (bv.current_baby_state = BabyState.WET_DIAPER →
      process_button_action bv BUTTON_DIAPER_PIN now =
        Except.ok
          ({ bv with
              last_diaper_change_time := now
              last_sleep_start_time := now
              current_baby_state := BabyState.SLEEPING
              need_start_time := none },
            [diaperChangedEvent (now - ns), sleepAfterChangeEvent])) := by
  constructor <;> intro hst <;>
    simp [process_button_action, hst, hns, BUTTON_HUNGER_PIN, BUTTON_DIAPER_PIN]

theorem confirmed_hold_matching_transition_witness :
    (⟨BabyState.HUNGRY, 0, 0, 0, some 3⟩ : BabyVars).need_start_time = some 3 ∧
    (⟨BabyState.HUNGRY, 0, 0, 0, some 3⟩ : BabyVars).current_baby_state = BabyState.HUNGRY ∧
    process_button_action ⟨BabyState.HUNGRY, 0, 0, 0, some 3⟩ BUTTON_HUNGER_PIN 10 =
      Except.ok (⟨BabyState.SLEEPING, 10, 0, 10, none⟩,
        [babyFedEvent 7, sleepAfterFeedingEvent]) :=
  ⟨rfl, rfl,
    (confirmed_hold_matching_transition ⟨BabyState.HUNGRY, 0, 0, 0, some 3⟩ 10 3 rfl).1 rfl⟩

/-- C8: a confirmed hold on a channel that does not match the current need
only emits the incorrect-action event and leaves every baby global (state,
`need_start_time`, all `last_*` clocks) unchanged. -/
theorem incorrect_action_unchanged (bv : BabyVars) (now : Int) :
    (bv.current_baby_state ≠ BabyState.HUNGRY →
      process_button_action bv BUTTON_HUNGER_PIN now = Except.ok (bv, [notHungryEvent])) ∧
    (bv.current_baby_state ≠ BabyState.WET_DIAPER →
      process_button_action bv BUTTON_DIAPER_PIN now = Except.ok (bv, [notWetEvent])) := by
  constructor <;> intro hst <;>
    simp [process_button_action, hst, BUTTON_HUNGER_PIN, BUTTON_DIAPER_PIN]

theorem incorrect_action_unchanged_witness :
    (⟨BabyState.HUNGRY, 0, 0, 0, some 3⟩ : BabyVars).current_baby_state ≠ BabyState.WET_DIAPER ∧
    process_button_action ⟨BabyState.HUNGRY, 0, 0, 0, some 3⟩ BUTTON_DIAPER_PIN 10 =
      Except.ok (⟨BabyState.HUNGRY, 0, 0, 0, some 3⟩, [notWetEvent]) :=
  ⟨by decide, (incorrect_action_unchanged ⟨BabyState.HUNGRY, 0, 0, 0, some 3⟩ 10).2 (by decide)⟩

/-- C10: under the `need_start_time` invariant, a matching resolver branch
always finds `need_start_time` set (so `now - need_start_time` is
well-defined), and `process_button_action` never reaches the `TypeError`
branch: it returns `ok` for every channel. -/
theorem resolver_subtraction_safe (bv : BabyVars) (channel : Nat) (now : Int)
    (h : needInv bv) :
    (((channel = BUTTON_HUNGER_PIN ∧ bv.current_baby_state = BabyState.HUNGRY) ∨
      (channel = BUTTON_DIAPER_PIN ∧ bv.current_baby_state = BabyState.WET_DIAPER)) →
      bv.need_start_time.isSome = true) ∧
    (process_button_action bv channel now).isOk = true := by
  obtain ⟨st, lf, ld, ls, ns⟩ := bv
  simp only [needInv] at h
  constructor
  · rintro (⟨hc, hst⟩ | ⟨hc, hst⟩) <;> subst hst <;> simp_all
  · unfold process_button_action
    cases st <;> cases ns <;> split_ifs <;> simp_all [Except.isOk, Except.toBool]

theorem resolver_subtraction_safe_witness :
    needInv ⟨BabyState.WET_DIAPER, 0, 0, 0, some 4⟩ ∧
    (process_button_action ⟨BabyState.WET_DIAPER, 0, 0, 0, some 4⟩
      BUTTON_DIAPER_PIN 9).isOk = true :=
  ⟨by decide,
    (resolver_subtraction_safe ⟨BabyState.WET_DIAPER, 0, 0, 0, some 4⟩ BUTTON_DIAPER_PIN 9
      (by decide)).2⟩

theorem primaryPhase_awake_id (bv : BabyVars) (now : Int) (s : Samples)
    (h : bv.current_baby_state ≠ BabyState.SLEEPING) :
    (primaryPhase bv now s).1 = bv := by
  obtain ⟨st, lf, ld, ls, ns⟩ := bv
  cases st <;> cases ns <;> simp_all [primaryPhase] <;> (try split_ifs) <;> rfl

theorem onsetPhase_sleeping_id (bv : BabyVars) (now : Int) (s : Samples)
    (h : bv.current_baby_state = BabyState.SLEEPING) :
    (onsetPhase bv now s).1 = bv := by
  simp [onsetPhase, h]

theorem onsetPhase_not_sleeping (bv : BabyVars) (now : Int) (s : Samples)
    (h : bv.current_baby_state ≠ BabyState.SLEEPING) :
    (onsetPhase bv now s).1.current_baby_state ≠ BabyState.SLEEPING := by
  obtain ⟨st, lf, ld, ls, ns⟩ := bv
  cases st <;> cases ns <;>
    simp_all [onsetPhase, hungerOnsetStep, diaperOnsetStep] <;>
    (try split_ifs) <;> simp_all

theorem check_baby_needs_fst (bv : BabyVars) (now : Int) (s : Samples) :
    (check_baby_needs bv now s).1 = (onsetPhase (primaryPhase bv now s).1 now s).1 := rfl

theorem hungerOnsetStep_fst (bv : BabyVars) (now : Int) (s : Samples) :
    (hungerOnsetStep bv now s).1 =
      if s.hunger_threshold ≤ now - bv.last_fed_time ∧
          bv.current_baby_state ≠ BabyState.HUNGRY then
        { bv with
            current_baby_state := BabyState.HUNGRY
            need_start_time := some (bv.need_start_time.getD now) }
      else bv := by
  obtain ⟨st, lf, ld, ls, ns⟩ := bv
  simp only [hungerOnsetStep]
  cases ns <;> split_ifs <;> simp_all

theorem diaperOnsetStep_fst (bv : BabyVars) (now : Int) (s : Samples) :
    (diaperOnsetStep bv now s).1 =
      if s.diaper_threshold ≤ now - bv.last_diaper_change_time ∧
          bv.current_baby_state ≠ BabyState.WET_DIAPER then
        { bv with
            current_baby_state := BabyState.WET_DIAPER
            need_start_time := some (bv.need_start_time.getD now) }
      else bv := by
  obtain ⟨st, lf, ld, ls, ns⟩ := bv
  simp only [diaperOnsetStep]
  cases ns <;> split_ifs <;> simp_all

set_option maxHeartbeats 1600000 in
theorem onsetPhase_idem (bv : BabyVars) (now : Int) (s : Samples) :
    (onsetPhase (onsetPhase bv now s).1 now s).1 = (onsetPhase bv now s).1 := by
  obtain ⟨st, lf, ld, ls, ns⟩ := bv
  by_cases ch : s.hunger_threshold ≤ now - lf <;>
    by_cases cd : s.diaper_threshold ≤ now - ld <;>
      cases st <;> cases ns <;>
        simp_all [onsetPhase, hungerOnsetStep_fst, diaperOnsetStep_fst, ← not_le]

theorem primaryPhase_sleeping_cases (bv : BabyVars) (now : Int) (s : Samples)
    (h : (primaryPhase bv now s).1.current_baby_state = BabyState.SLEEPING) :
    (primaryPhase bv now s).1 = bv ∧ bv.current_baby_state = BabyState.SLEEPING := by
  obtain ⟨st, lf, ld, ls, ns⟩ := bv
  cases st <;> cases ns <;>
    simp_all [primaryPhase] <;> (try split_ifs at h ⊢) <;> simp_all

/-- C5: inside one tick while awake, `check_baby_needs` runs the hunger-onset
check and then the diaper-onset check on its result (sequential overwrite
semantics); a diaper onset firing while HUNGRY leaves the state WET_DIAPER,
symmetrically a hunger onset overwrites WET_DIAPER (when the diaper check
does not fire afterwards), and in both cases — and in every awake tick —
an already-set `need_start_time` is never reset. -/
theorem onset_overwrite_semantics (now : Int) (s : Samples) :
    (∀ bv : BabyVars, bv.current_baby_state ≠ BabyState.SLEEPING →
      (onsetPhase bv now s).1 = (diaperOnsetStep (hungerOnsetStep bv now s).1 now s).1) ∧
    (∀ (bv : BabyVars) (t : Int), bv.current_baby_state = BabyState.HUNGRY →
      bv.need_start_time = some t →
      s.diaper_threshold ≤ now - bv.last_diaper_change_time →
      (check_baby_needs bv now s).1.current_baby_state = BabyState.WET_DIAPER ∧
      (check_baby_needs bv now s).1.need_start_time = some t) ∧
    (∀ (bv : BabyVars) (t : Int), bv.current_baby_state = BabyState.WET_DIAPER →
      bv.need_start_time = some t →
      s.hunger_threshold ≤ now - bv.last_fed_time →
      now - bv.last_diaper_change_time < s.diaper_threshold →
      (check_baby_needs bv now s).1.current_baby_state = BabyState.HUNGRY ∧
      (check_baby_needs bv now s).1.need_start_time = some t) ∧
    (∀ (bv : BabyVars) (t : Int), bv.current_baby_state ≠ BabyState.SLEEPING →
      bv.need_start_time = some t →
      (check_baby_needs bv now s).1.need_start_time = some t) := by
  refine ⟨?_, ?_, ?_, ?_⟩
  · intro bv h
    simp [onsetPhase, h]
  · intro bv t hst hns hd
    rw [check_baby_needs_fst, primaryPhase_awake_id bv now s (by simp [hst])]
    simp only [onsetPhase, hungerOnsetStep_fst, diaperOnsetStep_fst]
    split_ifs <;> simp_all
  · intro bv t hst hns hh hd
    rw [check_baby_needs_fst, primaryPhase_awake_id bv now s (by simp [hst])]
    simp only [onsetPhase, hungerOnsetStep_fst, diaperOnsetStep_fst]
    split_ifs <;> simp_all <;> omega
  · intro bv t hst hns
    rw [check_baby_needs_fst, primaryPhase_awake_id bv now s hst]
    simp only [onsetPhase, hungerOnsetStep_fst, diaperOnsetStep_fst]
    split_ifs <;> simp_all

theorem onset_overwrite_semantics_witness :
    (⟨BabyState.HUNGRY, 0, 0, 0, some 2⟩ : BabyVars).current_baby_state = BabyState.HUNGRY ∧
    (⟨BabyState.HUNGRY, 0, 0, 0, some 2⟩ : BabyVars).need_start_time = some 2 ∧
    ((⟨3600, 99999, 3600, true⟩ : Samples).diaper_threshold ≤
      5000 - (⟨BabyState.HUNGRY, 0, 0, 0, some 2⟩ : BabyVars).last_diaper_change_time) ∧
    ((check_baby_needs ⟨BabyState.HUNGRY, 0, 0, 0, some 2⟩ 5000
        ⟨3600, 99999, 3600, true⟩).1.current_baby_state = BabyState.WET_DIAPER ∧
      (check_baby_needs ⟨BabyState.HUNGRY, 0, 0, 0, some 2⟩ 5000
        ⟨3600, 99999, 3600, true⟩).1.need_start_time = some 2) :=
  ⟨rfl, rfl, by decide,
    (onset_overwrite_semantics 5000 ⟨3600, 99999, 3600, true⟩).2.1
      ⟨BabyState.HUNGRY, 0, 0, 0, some 2⟩ 2 rfl rfl (by decide)⟩

/-- C7: with a deterministic injected interval source (the same `Samples`)
and no intervening button events, running `check_baby_needs` twice at the
same timestamp leaves exactly the state the first run computed: the second
call is the identity on the baby globals. -/
theorem tick_idempotent (bv : BabyVars) (now : Int) (s : Samples) :
    (check_baby_needs (check_baby_needs bv now s).1 now s).1 =
      (check_baby_needs bv now s).1 := by
  show (onsetPhase (primaryPhase (onsetPhase (primaryPhase bv now s).1 now s).1 now s).1 now s).1
      = (onsetPhase (primaryPhase bv now s).1 now s).1
  by_cases hp : (primaryPhase bv now s).1.current_baby_state = BabyState.SLEEPING
  · obtain ⟨heq, hsleep⟩ := primaryPhase_sleeping_cases bv now s hp
    rw [heq, onsetPhase_sleeping_id bv now s hsleep, heq,
      onsetPhase_sleeping_id bv now s hsleep]
  · have h1 := onsetPhase_not_sleeping _ now s hp
    rw [primaryPhase_awake_id _ now s h1]
    exact onsetPhase_idem _ now s

theorem setAt_self {α : Type} (f : Nat → α) (k : Nat) (v : α) : setAt f k v k = v := by
  simp [setAt]

theorem setAt_other {α : Type} (f : Nat → α) (k n : Nat) (v : α) (h : n ≠ k) :
    setAt f k v n = f n := by
  simp [setAt, h]

/-- Spec §8 invariant on the button tracker:
`pending_hold_timer.is_some() ⇒ press_start_time.is_some()`, per channel. -/
def buttonInv (w : World) : Prop :=
  ∀ ch, (w.button_hold_timers ch).isSome = true →
    (w.button_press_start_times ch).isSome = true

/-- The with-press branch of `button_released_callback`: timer cancelled and
cleared, press start cleared, released event with the measured duration, and
the hold-too-short event exactly when the duration is below the requirement. -/
theorem button_released_callback_some (w : World) (ch : Nat) (now ps : Int)
    (h : w.button_press_start_times ch = some ps) :
    button_released_callback w ch now =
      ({ w with
          button_hold_timers := setAt w.button_hold_timers ch none
          button_press_start_times := setAt w.button_press_start_times ch none },
        if now - ps <
            (if ch = BUTTON_HUNGER_PIN then HOLD_DURATION_HUNGER else HOLD_DURATION_DIAPER) then
          [releasedEvent ch (now - ps), holdTooShortEvent ch]
        else [releasedEvent ch (now - ps)]) := by
  simp only [button_released_callback, h]
  split_ifs <;> rfl

/-- The stale branch of `check_button_hold`: line no longer asserted, so only
the benign event is logged and only the timer reference is cleared. -/
theorem check_button_hold_released (w : World) (ch : Nat) (now : Int)
    (h : w.line ch = false) :
    check_button_hold w ch now =
      Except.ok ({ w with button_hold_timers := setAt w.button_hold_timers ch none },
        [staleTimerEvent ch]) := by
  simp [check_button_hold, h]

/-- The asserted branch of `check_button_hold`: the Action Resolver runs and
its events are forwarded; the timer reference is cleared. -/
theorem check_button_hold_pressed (w : World) (ch : Nat) (now : Int)
    (r : BabyVars × List ActivityEvent) (h : w.line ch = true)
    (hr : process_button_action w.baby ch now = Except.ok r) :
    check_button_hold w ch now =
      Except.ok
        ({ w with baby := r.1, button_hold_timers := setAt w.button_hold_timers ch none },
          r.2) := by
  simp [check_button_hold, h, hr]

theorem pressEdge_fields (w : World) (ch : Nat) (t0 : Int)
    (h : ch = BUTTON_HUNGER_PIN ∨ ch = BUTTON_DIAPER_PIN) :
    (pressEdge w ch t0).1.button_press_start_times ch = some t0 ∧
    (pressEdge w ch t0).1.line ch = true ∧
    (pressEdge w ch t0).1.baby = w.baby := by
  rcases h with rfl | rfl <;>
    simp [pressEdge, button_pressed_callback, setLine, setAt,
      BUTTON_HUNGER_PIN, BUTTON_DIAPER_PIN]

/-- C4 counterexample: from the initial world, press the Hunger button at
`t = 0` and let the hold timer fire at `t = 180`.  Afterward the pending
timer reference is `None` but `press_start_time` is still `Some 0`: the two
fields are NOT cleared together on timer firing. -/
theorem timer_fire_retains_press_start :
    (check_button_hold (pressEdge initWorld 17 0).1 17 180).map
        (fun r => (r.1.button_hold_timers 17, r.1.button_press_start_times 17)) =
      Except.ok (none, some 0) := rfl

/-- C4 (amended): after every button-tracker operation the implication
`pending_hold_timer is Some → press_start_time is Some` still holds; a
release with a recorded press clears both fields together; timer firing
clears only the timer reference and retains `press_start_time`; a new press
overwrites `press_start_time` and re-arms the timer instead of clearing. -/
theorem button_tracker_invariant (w : World) (ch : Nat) (now : Int) (h : buttonInv w) :
    buttonInv (button_pressed_callback w ch now).1 ∧
    buttonInv (button_released_callback w ch now).1 ∧
    (∀ r, check_button_hold w ch now = Except.ok r → buttonInv r.1) ∧
    (∀ ps, w.button_press_start_times ch = some ps →
      (button_released_callback w ch now).1.button_press_start_times ch = none ∧
      (button_released_callback w ch now).1.button_hold_timers ch = none) ∧
    (∀ r, check_button_hold w ch now = Except.ok r →
      r.1.button_hold_timers ch = none ∧
      r.1.button_press_start_times ch = w.button_press_start_times ch) ∧
    ((ch = BUTTON_HUNGER_PIN ∨ ch = BUTTON_DIAPER_PIN) →
      (button_pressed_callback w ch now).1.button_press_start_times ch = some now ∧
      (button_pressed_callback w ch now).1.button_hold_timers ch ≠ none) := by
  refine ⟨?_, ?_, ?_, ?_, ?_, ?_⟩
  · intro c hc
    by_cases hcc : c = ch <;>
      by_cases h17 : ch = BUTTON_HUNGER_PIN <;> by_cases h27 : ch = BUTTON_DIAPER_PIN <;>
        simp_all [button_pressed_callback, setAt] <;> exact h c hc
  · intro c hc
    rcases hw : w.button_press_start_times ch with _ | ps
    · rw [button_released_callback, hw] at hc ⊢
      exact h c hc
    · rw [button_released_callback_some w ch now ps hw] at hc ⊢
      by_cases hcc : c = ch <;> split_ifs at hc <;> simp_all [setAt] <;> exact h c hc
  · intro r hr c hc
    rcases hl : w.line ch with _ | _
    · rw [check_button_hold_released w ch now hl] at hr
      obtain rfl : _ = r := Except.ok.inj hr
      by_cases hcc : c = ch <;> simp_all [setAt] <;> exact h c hc
    · rcases hp : process_button_action w.baby ch now with e | pr
      · rw [check_button_hold, if_pos hl, hp] at hr
        exact absurd hr (by simp)
      · rw [check_button_hold_pressed w ch now pr hl hp] at hr
        obtain rfl : _ = r := Except.ok.inj hr
        by_cases hcc : c = ch <;> simp_all [setAt] <;> exact h c hc
  · intro ps hps
    rw [button_released_callback_some w ch now ps hps]
    split_ifs <;> simp [setAt]
  · intro r hr
    rcases hl : w.line ch with _ | _
    · rw [check_button_hold_released w ch now hl] at hr
      obtain rfl : _ = r := Except.ok.inj hr
      simp [setAt]
    · rcases hp : process_button_action w.baby ch now with e | pr
      · rw [check_button_hold, if_pos hl, hp] at hr
        exact absurd hr (by simp)
      · rw [check_button_hold_pressed w ch now pr hl hp] at hr
        obtain rfl : _ = r := Except.ok.inj hr
        simp [setAt]
  · rintro (rfl | rfl) <;>
      simp [button_pressed_callback, setAt, BUTTON_HUNGER_PIN, BUTTON_DIAPER_PIN]

theorem button_tracker_invariant_witness :
    buttonInv initWorld ∧
    buttonInv (button_pressed_callback initWorld 17 3).1 :=
  ⟨fun _ h => by simp [initWorld] at h,
    (button_tracker_invariant initWorld 17 3 (fun _ h => by simp [initWorld] at h)).1⟩

/-- C9 counterexample: a press notification on the unconfigured channel 99
DOES modify button-tracker state: `button_pressed_callback` stores
`button_press_start_times[channel] = time.time()` (line 124) before the
recognized-channel check bails out. -/
theorem unrecognized_press_modifies_tracker :
    (button_pressed_callback initWorld 99 5).1.button_press_start_times 99 = some 5 ∧
    initWorld.button_press_start_times 99 = none :=
  ⟨rfl, rfl⟩

/-- C9 (amended): a press on a channel outside the configured pair is logged
and then ignored without arming any hold timer and without touching the hold
timers, baby state or line — not fatal — but the handler does record
`press_start_time = now` for that channel before bailing out. -/
theorem unrecognized_press_behavior (w : World) (ch : Nat) (now : Int)
    (h1 : ch ≠ BUTTON_HUNGER_PIN) (h2 : ch ≠ BUTTON_DIAPER_PIN) :
    button_pressed_callback w ch now =
      ({ w with button_press_start_times := setAt w.button_press_start_times ch (some now) },
        [pressedEvent ch]) := by
  simp [button_pressed_callback, h1, h2]

theorem unrecognized_press_behavior_witness :
    ((99 : Nat) ≠ BUTTON_HUNGER_PIN ∧ (99 : Nat) ≠ BUTTON_DIAPER_PIN) ∧
    button_pressed_callback initWorld 99 5 =
      ({ initWorld with
          button_press_start_times := setAt initWorld.button_press_start_times 99 (some 5) },
        [pressedEvent 99]) :=
  ⟨⟨by decide, by decide⟩, unrecognized_press_behavior initWorld 99 5 (by decide) (by decide)⟩

/-- C6: on a release with a recorded press, the tracker computes
`hold_duration = now - press_start_time`, cancels and clears the pending
timer, clears `press_start_time`, emits the released event carrying the
measured duration, and additionally emits the hold-too-short failure exactly
when the duration is below the requirement; the release path never invokes
the Action Resolver (the emitted events are exactly the ones shown), and a
timer that still fires after the release only logs the benign stale event —
no confirmation happens later. -/
theorem release_short_hold_behavior (w : World) (ch : Nat) (now ps : Int)
    (h : w.button_press_start_times ch = some ps) :
    button_released_callback w ch now =
      ({ w with
          button_hold_timers := setAt w.button_hold_timers ch none
          button_press_start_times := setAt w.button_press_start_times ch none },
        if now - ps <
            (if ch = BUTTON_HUNGER_PIN then HOLD_DURATION_HUNGER else HOLD_DURATION_DIAPER) then
          [releasedEvent ch (now - ps), holdTooShortEvent ch]
        else [releasedEvent ch (now - ps)]) ∧
    (∀ tf r, check_button_hold (releaseEdge w ch now).1 ch tf = Except.ok r →
      r.2 = [staleTimerEvent ch] ∧ r.1.baby = (releaseEdge w ch now).1.baby ∧
      r.1.button_hold_timers ch = none) := by
  refine ⟨button_released_callback_some w ch now ps h, ?_⟩
  intro tf r hr
  have hsl : (setLine w ch false).button_press_start_times ch = some ps := h
  have hline : (releaseEdge w ch now).1.line ch = false := by
    unfold releaseEdge
    rw [button_released_callback_some _ ch now ps hsl]
    simp [setLine]
  rw [check_button_hold_released _ ch tf hline] at hr
  obtain rfl : _ = r := Except.ok.inj hr
  exact ⟨rfl, rfl, setAt_self _ _ _⟩

theorem release_short_hold_behavior_witness :
    (pressEdge initWorld 17 4).1.button_press_start_times 17 = some 4 ∧
    (button_released_callback (pressEdge initWorld 17 4).1 17 14).2 =
      [releasedEvent 17 10, holdTooShortEvent 17] :=
  ⟨rfl, by
    rw [(release_short_hold_behavior (pressEdge initWorld 17 4).1 17 14 4 rfl).1]
    rfl⟩

/-- `True` iff the event list shows the Action Resolver ran (the
confirmed-hold path): a need-met or incorrect-action record. -/
def confirmedIn (evs : List ActivityEvent) : Bool :=
  evs.any (fun e => e.event_type == "Need Met" || e.event_type == "Incorrect Action")

/-- `True` iff the event list shows the release-with-recorded-press path ran
(the only log carrying a measured hold duration). -/
def releasedPathIn (evs : List ActivityEvent) : Bool :=
  evs.any (fun e => e.message == "Button released.")

/-- C3: when the hold timer fires it re-reads the physical line; if released
it emits only the benign stale event and clears just the timer reference;
if still asserted it invokes the Action Resolver (forwarding its state
update and events) and clears the timer reference.  Race: for a press at
`t0` followed by a physical release before the timer fires, under both
serialisations (release callback first, or timer body first and the release
callback after), the released-early path runs exactly once and the
confirmed-hold path never runs — exactly one of the two takes effect. -/
theorem hold_timer_race_resolution :
    (∀ (w : World) (ch : Nat) (now : Int), w.line ch = false →
      check_button_hold w ch now =
        Except.ok ({ w with button_hold_timers := setAt w.button_hold_timers ch none },
          [staleTimerEvent ch])) ∧
    (∀ (w : World) (ch : Nat) (now : Int) (r : BabyVars × List ActivityEvent),
      w.line ch = true → process_button_action w.baby ch now = Except.ok r →
      check_button_hold w ch now =
        Except.ok
          ({ w with baby := r.1, button_hold_timers := setAt w.button_hold_timers ch none },
            r.2)) ∧
    (∀ (w : World) (ch : Nat) (t0 t1 tf : Int),
      ch = BUTTON_HUNGER_PIN ∨ ch = BUTTON_DIAPER_PIN →
      (releasedPathIn (releaseEdge (pressEdge w ch t0).1 ch t1).2 = true ∧
        confirmedIn (releaseEdge (pressEdge w ch t0).1 ch t1).2 = false) ∧
      (∀ r, check_button_hold (releaseEdge (pressEdge w ch t0).1 ch t1).1 ch tf =
          Except.ok r →
        releasedPathIn r.2 = false ∧ confirmedIn r.2 = false) ∧
      (∀ r, check_button_hold (setLine (pressEdge w ch t0).1 ch false) ch tf =
          Except.ok r →
        (releasedPathIn r.2 = false ∧ confirmedIn r.2 = false) ∧
        (releasedPathIn (button_released_callback r.1 ch t1).2 = true ∧
          confirmedIn (button_released_callback r.1 ch t1).2 = false))) := by
  refine ⟨check_button_hold_released, ?_, ?_⟩
  · intro w ch now r hl hp
    exact check_button_hold_pressed w ch now r hl hp
  · intro w ch t0 t1 tf hch
    obtain ⟨hpress, hline, _⟩ := pressEdge_fields w ch t0 hch
    have hsl : (setLine (pressEdge w ch t0).1 ch false).button_press_start_times ch =
        some t0 := hpress
    refine ⟨?_, ?_, ?_⟩
    · unfold releaseEdge
      rw [button_released_callback_some _ ch t1 t0 hsl]
      constructor <;> split_ifs <;> rfl
    · intro r hr
      have hline2 : (releaseEdge (pressEdge w ch t0).1 ch t1).1.line ch = false := by
        unfold releaseEdge
        rw [button_released_callback_some _ ch t1 t0 hsl]
        simp [setLine]
      rw [check_button_hold_released _ ch tf hline2] at hr
      obtain rfl : _ = r := Except.ok.inj hr
      exact ⟨rfl, rfl⟩
    · intro r hr
      have hline3 : (setLine (pressEdge w ch t0).1 ch false).line ch = false := by
        simp [setLine]
      rw [check_button_hold_released _ ch tf hline3] at hr
      obtain rfl : _ = r := Except.ok.inj hr
      refine ⟨⟨rfl, rfl⟩, ?_⟩
      have hsl2 : ({ setLine (pressEdge w ch t0).1 ch false with
          button_hold_timers :=
            setAt (setLine (pressEdge w ch t0).1 ch false).button_hold_timers ch
              none } : World).button_press_start_times ch = some t0 := hpress
      rw [button_released_callback_some _ ch t1 t0 hsl2]
      constructor <;> split_ifs <;> rfl

theorem hold_timer_race_resolution_witness :
    (releaseEdge (pressEdge initWorld 17 4).1 17 14).1.line 17 = false ∧
    check_button_hold (releaseEdge (pressEdge initWorld 17 4).1 17 14).1 17 184 =
      Except.ok
        ({ (releaseEdge (pressEdge initWorld 17 4).1 17 14).1 with
            button_hold_timers :=
              setAt (releaseEdge (pressEdge initWorld 17 4).1 17 14).1.button_hold_timers
                17 none },
          [staleTimerEvent 17]) :=
  ⟨rfl,
    hold_timer_race_resolution.1 (releaseEdge (pressEdge initWorld 17 4).1 17 14).1 17 184
      rfl⟩

end BabyPi
